import Mathlib

/-!
Shallow embedding of the Yatra-Scanner ticket redemption core.

The embedded code:
* the Postgres function `verify_and_mark_ticket` and the admin override
  functions `admin_force_allow` / `admin_reset_entry` from the migration
  `Single Ticket with Auto-Refresh` (cooldown policy, 14 hour window);
* the JavaScript wrappers `verifyTicketById`, `verifyTicketByCode`,
  `searchTickets`, `getTicketStatus` from `src/lib/ticketVerification.js`
  and `adminForceAllow`, `adminResetEntry` from `src/lib/adminOverride.js`.

Time is modelled in seconds as `Nat`.  The SQL test
`EXTRACT(EPOCH FROM (NOW() - last_used_at)) / 3600 < 14` is embedded as
`now - last < 14 * 3600` with truncated subtraction: when `last ≤ now` the two
agree exactly, and when `last > now` both sides reject (the real quotient is
negative, the Nat difference is zero), so the verdicts coincide.

Each database transaction holds a `FOR UPDATE` row lock on the one ticket row
from read to commit, so concurrent executions on the same row serialize; a
burst of concurrent calls is therefore embedded as running the atomic
transaction body in an arbitrary serialization order (`runRedeemsAt`).
-/

namespace Yatra

/-- One row of the `tickets` table.  The six digit code column is called
`six_digit_code` in the current schema (the older migrations call the same
column `code_6_digit`). -/
structure Ticket where
  id : String
  six_digit_code : String
  email : String
  name : String
  college : String
  ticket_type : String
  ticket_status : String
  last_used_at : Option Nat
  updated_at : Nat
deriving DecidableEq

/-- One row of the `override_logs` audit table. -/
structure OverrideLog where
  ticket_id : String
  admin_action : String
  day : String
  reason : String
  admin_identifier : String
deriving DecidableEq

/-- The persisted state: the `tickets` table and the append-only
`override_logs` table. -/
structure Store where
  tickets : List Ticket
  override_logs : List OverrideLog
deriving DecidableEq

/-- 14 hours in seconds: the auto-refresh cooldown of the migration. -/
def cooldownSeconds : Nat := 14 * 3600

/-- `SELECT * FROM tickets WHERE id = p_ticket_id` (zero or one row: `id` is
the primary key; the embedding takes the first matching row). -/
def findTicket (s : Store) (tid : String) : Option Ticket :=
  s.tickets.find? (fun t => t.id == tid)

/-- `UPDATE tickets SET last_used_at = NOW(), updated_at = NOW()
WHERE id = p_ticket_id`. -/
def markUsed (s : Store) (tid : String) (now : Nat) : Store :=
  { s with
    tickets := s.tickets.map (fun t =>
      if t.id == tid then { t with last_used_at := some now, updated_at := now }
      else t) }

/-- The JSONB object built by `verify_and_mark_ticket`
(`ticket_type` and `name` are absent on the not-found branch). -/
structure VerifyResult where
  success : Bool
  allowed : Bool
  reason : String
  message : String
  ticket_type : Option String
  name : Option String
deriving DecidableEq

/-- The not-found JSONB of `verify_and_mark_ticket`. -/
def notFoundResult : VerifyResult :=
  { success := false, allowed := false, reason := "INVALID_TICKET",
    message := "Ticket not found", ticket_type := none, name := none }

/-- The cooldown-rejection JSONB of `verify_and_mark_ticket`. -/
def alreadyUsedResult (t : Ticket) : VerifyResult :=
  { success := true, allowed := false, reason := "ALREADY_USED",
    message := "Ticket was recently used. Please wait before reusing.",
    ticket_type := some t.ticket_type, name := some t.name }

/-- The admission JSONB of `verify_and_mark_ticket`. -/
def admittedResult (t : Ticket) : VerifyResult :=
  { success := true, allowed := true, reason := "VALID",
    message := "Entry allowed",
    ticket_type := some t.ticket_type, name := some t.name }

/-- The Postgres function `verify_and_mark_ticket(p_ticket_id)`: lock and read
the one ticket row; reject if absent; reject if `last_used_at` is within the
14 hour cooldown of `now`; otherwise set `last_used_at` (and `updated_at`) to
`now` and admit.  Returns the JSONB result and the state after the
transaction commits. -/
def verify_and_mark_ticket (s : Store) (now : Nat) (p_ticket_id : String) :
    VerifyResult × Store :=
  match findTicket s p_ticket_id with
  | none => (notFoundResult, s)
  | some t =>
    match t.last_used_at with
    | some last =>
      if now - last < cooldownSeconds then
        (alreadyUsedResult t, s)
      else
        (admittedResult t, markUsed s p_ticket_id now)
    | none => (admittedResult t, markUsed s p_ticket_id now)

/-- The JSONB object built by the admin override SQL functions
(`ticket_code` and `name` are absent on the not-found branch and on the
JavaScript error paths). -/
structure AdminResult where
  success : Bool
  message : String
  ticket_code : Option String
  name : Option String
deriving DecidableEq

/-- The not-found JSONB of the admin override SQL functions. -/
def adminNotFound : AdminResult :=
  { success := false, message := "Ticket not found",
    ticket_code := none, name := none }

/-- The Postgres function `admin_force_allow(p_ticket_id, p_reason,
p_admin_identifier)`: lock and read the ticket row; fail if absent; otherwise
unconditionally set `last_used_at` to `now`, insert one `override_logs` row
with action `ALLOW`, and succeed, returning the code and name of the ticket
as read before the update. -/
def admin_force_allow (s : Store) (now : Nat)
    (p_ticket_id p_reason p_admin_identifier : String) : AdminResult × Store :=
  match findTicket s p_ticket_id with
  | none => (adminNotFound, s)
  | some t =>
    let s1 := markUsed s p_ticket_id now
    let s2 := { s1 with override_logs := s1.override_logs ++
      [{ ticket_id := p_ticket_id, admin_action := "ALLOW", day := "SINGLE",
         reason := p_reason, admin_identifier := p_admin_identifier }] }
    ({ success := true, message := "Entry forced successfully",
       ticket_code := some t.six_digit_code, name := some t.name }, s2)

/-- `UPDATE tickets SET last_used_at = NULL, updated_at = NOW()
WHERE id = p_ticket_id`. -/
def clearUsed (s : Store) (tid : String) (now : Nat) : Store :=
  { s with
    tickets := s.tickets.map (fun t =>
      if t.id == tid then { t with last_used_at := none, updated_at := now }
      else t) }

/-- The Postgres function `admin_reset_entry(p_ticket_id, p_reason,
p_admin_identifier)`: lock and read the ticket row; fail if absent; otherwise
set `last_used_at` to NULL, insert one `override_logs` row with action
`RESET`, and succeed. -/
def admin_reset_entry (s : Store) (now : Nat)
    (p_ticket_id p_reason p_admin_identifier : String) : AdminResult × Store :=
  match findTicket s p_ticket_id with
  | none => (adminNotFound, s)
  | some t =>
    let s1 := clearUsed s p_ticket_id now
    let s2 := { s1 with override_logs := s1.override_logs ++
      [{ ticket_id := p_ticket_id, admin_action := "RESET", day := "SINGLE",
         reason := p_reason, admin_identifier := p_admin_identifier }] }
    ({ success := true, message := "Entry reset successfully",
       ticket_code := some t.six_digit_code, name := some t.name }, s2)

/-- Hex digit test for the UUID regex character class `[0-9a-f]` with the
case-insensitive flag. -/
def isHexChar (c : Char) : Bool :=
  let n := c.toNat
  (decide (48 ≤ n) && decide (n ≤ 57)) ||
  (decide (97 ≤ n) && decide (n ≤ 102)) ||
  (decide (65 ≤ n) && decide (n ≤ 70))

/-- Consume exactly `n` hex characters, returning the rest of the input. -/
def hexRun : Nat → List Char → Option (List Char)
  | 0, rest => some rest
  | _ + 1, [] => none
  | n + 1, c :: rest => if isHexChar c then hexRun n rest else none

/-- Consume one hyphen, returning the rest of the input. -/
def expectDash : List Char → Option (List Char)
  | c :: rest => if c == Char.ofNat 45 then some rest else none
  | [] => none

/-- The JavaScript regex
`/^[0-9a-f]\x7b8\x7d-[0-9a-f]\x7b4\x7d-[0-9a-f]\x7b4\x7d-[0-9a-f]\x7b4\x7d-[0-9a-f]\x7b12\x7d$/i`
of `verifyTicketById`: five hyphen-separated hex groups of lengths
8, 4, 4, 4, 12, anchored at both ends. -/
def isUuidFormat (s : String) : Bool :=
  match ((((((((hexRun 8 s.data).bind expectDash).bind (hexRun 4)).bind
      expectDash).bind (hexRun 4)).bind expectDash).bind (hexRun 4)).bind
      expectDash).bind (hexRun 12) with
  | some [] => true
  | _ => false

/-- The JavaScript regex `/^\d\x7b6\x7d$/` of `verifyTicketByCode`: exactly
six decimal digits. -/
def isSixDigitCode (s : String) : Bool :=
  s.length == 6 && s.data.all (fun c => Char.isDigit c)

/-- PostgREST `.single()` on a filtered select: errors unless exactly one row
matches (zero rows in particular are reported as an error, code PGRST116). -/
def singleRow (rows : List Ticket) (p : Ticket → Bool) : Except String Ticket :=
  match rows.filter p with
  | [t] => Except.ok t
  | [] => Except.error "PGRST116: zero rows"
  | _ :: _ :: _ => Except.error "PGRST116: more than one row"

/-- The object resolved by the JavaScript verification wrappers
(`allowed`, `reason`, `message`, optional `name`). -/
structure JsVerify where
  allowed : Bool
  reason : String
  message : String
  name : Option String
deriving DecidableEq

/-- JavaScript `a || b` on strings: the empty string is falsy. -/
def jsOrStr (a b : String) : String := if a == "" then b else a

/-- `verifyTicketById(ticketId, currentDay)`: reject a string that does not
match the UUID regex with reason `INVALID_TICKET` before any store access;
otherwise call the `verify_and_mark_ticket` RPC and map its JSONB fields
(`data.allowed || false`, `data.reason || ERROR`, `data.message || ...`,
`data.name`).  The `currentDay` parameter is kept for compatibility and not
used. -/
def verifyTicketById (s : Store) (now : Nat) (ticketId : String)
    (currentDay : Nat) : JsVerify × Store :=
  if !isUuidFormat ticketId then
    ({ allowed := false, reason := "INVALID_TICKET",
       message := "Invalid QR code format", name := none }, s)
  else
    let p := verify_and_mark_ticket s now ticketId
    ({ allowed := p.1.allowed || false,
       reason := jsOrStr p.1.reason "ERROR",
       message := jsOrStr p.1.message "Verification failed",
       name := p.1.name }, p.2)

/-- `verifyTicketByCode(code, currentDay)`: reject a string that is not
exactly six digits with reason `INVALID_TICKET` before any store access;
otherwise look the code up with
`.from('tickets').select('id').eq('six_digit_code', code).single()`; report a
lookup error (including the zero-row case of `.single()`) with reason
`ERROR`; report a falsy resolved id with reason `INVALID_TICKET`; otherwise
verify the resolved UUID through `verifyTicketById`. -/
def verifyTicketByCode (s : Store) (now : Nat) (code : String)
    (currentDay : Nat) : JsVerify × Store :=
  if !isSixDigitCode code then
    ({ allowed := false, reason := "INVALID_TICKET",
       message := "Code must be 6 digits", name := none }, s)
  else
    match singleRow s.tickets (fun t => t.six_digit_code == code) with
    | Except.error _ =>
      ({ allowed := false, reason := "ERROR",
         message := "Lookup failed. Please try again.", name := none }, s)
    | Except.ok t =>
      if t.id == "" then
        ({ allowed := false, reason := "INVALID_TICKET",
           message := "Invalid code - ticket not found", name := none }, s)
      else
        verifyTicketById s now t.id currentDay

/-- Does the character list starting here begin with the needle? -/
def charsStartWith : List Char → List Char → Bool
  | [], _ => true
  | _ :: _, [] => false
  | c :: cs, d :: ds => c == d && charsStartWith cs ds

/-- Does the haystack contain the needle as a contiguous sublist? -/
def charsContain (needle : List Char) : List Char → Bool
  | [] => charsStartWith needle []
  | d :: ds => charsStartWith needle (d :: ds) || charsContain needle (d :: ds).tail

/-- JavaScript `String.prototype.trim()`: strip whitespace from both ends. -/
def jsTrim (s : String) : String :=
  String.mk
    (((s.data.dropWhile Char.isWhitespace).reverse.dropWhile
      Char.isWhitespace).reverse)

/-- Lower-case a string character by character (the case folding used to
embed the case-insensitive ILIKE of PostgREST). -/
def lowerStr (s : String) : String := String.mk (s.data.map Char.toLower)

/-- PostgREST filter `field.ilike.%q%`: case-insensitive substring match. -/
def ilikeSub (field q : String) : Bool :=
  charsContain (lowerStr q).data (lowerStr field).data

/-- The `.or(...)` filter of the primary `searchTickets` query:
`name.ilike.%q%,email.ilike.%q%,six_digit_code.eq.q,college.ilike.%q%`. -/
def matchesSearch (q : String) (t : Ticket) : Bool :=
  ilikeSub t.name q || ilikeSub t.email q || t.six_digit_code == q ||
  ilikeSub t.college q

/-- `searchTickets(query)`: return `[]` for a falsy or shorter-than-3 query;
otherwise trim the query and run the primary select on `tickets` with the
`.or(...)` filter above and `.limit(20)`.  (The `code_6_digit` fallback query
only fires when the primary select errors on a missing column; the embedded
store has the `six_digit_code` schema, so the primary query is the one
embedded.) -/
def searchTickets (s : Store) (query : String) : List Ticket :=
  if query.length < 3 then []
  else
    let searchQuery := jsTrim query
    (s.tickets.filter (matchesSearch searchQuery)).take 20

/-- `getTicketStatus(ticketId)`:
`.from('tickets').select('*').eq('id', ticketId).single()`; any error or
missing row yields found = false (`none`), otherwise the ticket row. -/
def getTicketStatus (s : Store) (ticketId : String) : Option Ticket :=
  match singleRow s.tickets (fun t => t.id == ticketId) with
  | Except.error _ => none
  | Except.ok t => some t

/-- A Lookup Service call: free-text search or fetch-by-identifier. -/
inductive LookupCall where
  | search (q : String)
  | status (tid : String)
deriving DecidableEq

/-- The store after executing one Lookup call: both operations are plain
selects (no insert, update or delete in their query builders), so the store
after the call is the store before it. -/
def runLookup (s : Store) : LookupCall → Store
  | LookupCall.search q => (searchTickets s q, s).2
  | LookupCall.status tid => (getTicketStatus s tid, s).2

/-- The store after executing a sequence of Lookup calls. -/
def runLookups (s : Store) (cs : List LookupCall) : Store :=
  cs.foldl runLookup s

/-- JavaScript falsiness of an optional string argument (`undefined`, `null`
or the empty string). -/
def jsFalsyStr : Option String → Bool
  | none => true
  | some s => s == ""

/-- The string carried by an optional argument, defaulting to empty. -/
def jsStr : Option String → String
  | none => ""
  | some s => s

/-- `adminForceAllow(ticketId, day, reason, adminIdentifier)`: fail before
any RPC when `!reason || reason.trim().length < 10`; when `adminIdentifier`
is `null`/`undefined`, evaluating `adminIdentifier.trim()` throws before the
RPC is issued and the catch block returns a failure; otherwise call the
`admin_force_allow` RPC with the trimmed arguments and return its JSONB.
The `day` parameter is kept for compatibility and not used. -/
def adminForceAllow (s : Store) (now : Nat) (ticketId : String) (day : Nat)
    (reason adminIdentifier : Option String) : AdminResult × Store :=
  if jsFalsyStr reason || (jsTrim (jsStr reason)).length < 10 then
    ({ success := false, message := "Reason must be at least 10 characters",
       ticket_code := none, name := none }, s)
  else
    match adminIdentifier with
    | none =>
      ({ success := false, message := "System error during override",
         ticket_code := none, name := none }, s)
    | some a =>
      admin_force_allow s now ticketId (jsTrim (jsStr reason)) (jsTrim a)

/-- `adminResetEntry(ticketId, day, reason, adminIdentifier)`: same guard
structure as `adminForceAllow`, delegating to the `admin_reset_entry` RPC. -/
def adminResetEntry (s : Store) (now : Nat) (ticketId : String) (day : Nat)
    (reason adminIdentifier : Option String) : AdminResult × Store :=
  if jsFalsyStr reason || (jsTrim (jsStr reason)).length < 10 then
    ({ success := false, message := "Reason must be at least 10 characters",
       ticket_code := none, name := none }, s)
  else
    match adminIdentifier with
    | none =>
      ({ success := false, message := "System error during reset",
         ticket_code := none, name := none }, s)
    | some a =>
      admin_reset_entry s now ticketId (jsTrim (jsStr reason)) (jsTrim a)

/-- Run the atomic transaction body of `verify_and_mark_ticket` once per
entry of `times`, in that serialization order (the `FOR UPDATE` row lock
serializes concurrent transactions on the one row), threading the store. -/
def runRedeemsAt : Store → String → List Nat → List VerifyResult × Store
  | s, _, [] => ([], s)
  | s, tid, u :: us =>
    let p := verify_and_mark_ticket s u tid
    let q := runRedeemsAt p.2 tid us
    (p.1 :: q.1, q.2)

/-- A sample never-used ticket, for concrete witnesses. -/
def ticketA : Ticket :=
  { id := "aaaaaaaa-0000-0000-0000-000000000001", six_digit_code := "123456",
    email := "asha@example.com", name := "Asha", college := "abc",
    ticket_type := "SINGLE", ticket_status := "valid",
    last_used_at := none, updated_at := 0 }

/-- A one-ticket store, for concrete witnesses. -/
def store1 : Store := { tickets := [ticketA], override_logs := [] }

/-- A sample ticket that was redeemed at time 0, for concrete witnesses. -/
def ticketUsed : Ticket :=
  { id := "bbbbbbbb-0000-0000-0000-000000000002", six_digit_code := "222222",
    email := "ravi@example.com", name := "Ravi", college := "xyz",
    ticket_type := "SINGLE", ticket_status := "used",
    last_used_at := some 0, updated_at := 0 }

/-- A one-ticket store whose ticket is inside the cooldown, for concrete
witnesses. -/
def storeUsed : Store := { tickets := [ticketUsed], override_logs := [] }

/-- Modelled from the claim wording of the free-text search property, for
comparison with the code: the query matches as a case-insensitive substring
of the name or the contact (email), or as a substring of the numeric code.
(The code additionally matches the college field, and matches the code by
equality.) -/
def claimedSearchMatch (q : String) (t : Ticket) : Bool :=
  ilikeSub t.name q || ilikeSub t.email q ||
  charsContain q.data t.six_digit_code.data

/-- Updating every row whose id matches, with an id-preserving row function,
commutes with finding the first row whose id matches. -/
theorem find_map_ite (l : List Ticket) (tid : String) (f : Ticket → Ticket)
    (hf : ∀ u, (f u).id = u.id) (t : Ticket)
    (h : l.find? (fun u => u.id == tid) = some t) :
    (l.map (fun u => if u.id == tid then f u else u)).find?
      (fun u => u.id == tid) = some (f t) := by
  induction l with
  | nil => simp at h
  | cons a l ih =>
    cases hid : (a.id == tid) with
    | true =>
      rw [@List.find?_cons_of_pos _ (fun u => u.id == tid) a l hid] at h
      have hat : a = t := Option.some.inj h
      subst hat
      have hfa : ((f a).id == tid) = true := by rw [hf a]; exact hid
      rw [List.map_cons, if_pos hid,
        @List.find?_cons_of_pos _ (fun u => u.id == tid) (f a) _ hfa]
    | false =>
      rw [@List.find?_cons_of_neg _ (fun u => u.id == tid) a l
        (by simp [hid])] at h
      rw [List.map_cons, if_neg (by simp [hid]),
        @List.find?_cons_of_neg _ (fun u => u.id == tid) a _ (by simp [hid])]
      exact ih h


/-- `markUsed` rewrites the found row. -/
theorem findTicket_markUsed (s : Store) (tid : String) (now : Nat) (t : Ticket)
    (h : findTicket s tid = some t) :
    findTicket (markUsed s tid now) tid =
      some { t with last_used_at := some now, updated_at := now } := by
  unfold findTicket markUsed at *
  exact find_map_ite s.tickets tid
    (fun u => { u with last_used_at := some now, updated_at := now })
    (fun u => rfl) t h

/-- `clearUsed` rewrites the found row. -/
theorem findTicket_clearUsed (s : Store) (tid : String) (now : Nat) (t : Ticket)
    (h : findTicket s tid = some t) :
    findTicket (clearUsed s tid now) tid =
      some { t with last_used_at := none, updated_at := now } := by
  unfold findTicket clearUsed at *
  exact find_map_ite s.tickets tid
    (fun u => { u with last_used_at := none, updated_at := now })
    (fun u => rfl) t h

/-- Not-found branch of the verification transaction. -/
theorem verify_not_found (s : Store) (now : Nat) (tid : String)
    (h : findTicket s tid = none) :
    verify_and_mark_ticket s now tid = (notFoundResult, s) := by
  simp only [verify_and_mark_ticket, h]

/-- Cooldown-rejection branch of the verification transaction. -/
theorem verify_reject (s : Store) (now : Nat) (tid : String) (t : Ticket)
    (l : Nat) (h : findTicket s tid = some t) (hl : t.last_used_at = some l)
    (hw : now - l < cooldownSeconds) :
    verify_and_mark_ticket s now tid = (alreadyUsedResult t, s) := by
  simp only [verify_and_mark_ticket, h, hl]
  rw [if_pos hw]

/-- Admission branch of the verification transaction, never-used case. -/
theorem verify_admit_never (s : Store) (now : Nat) (tid : String) (t : Ticket)
    (h : findTicket s tid = some t) (hn : t.last_used_at = none) :
    verify_and_mark_ticket s now tid = (admittedResult t, markUsed s tid now) := by
  simp only [verify_and_mark_ticket, h, hn]

/-- Admission branch of the verification transaction, cooldown-expired
case. -/
theorem verify_admit_expired (s : Store) (now : Nat) (tid : String)
    (t : Ticket) (l : Nat) (h : findTicket s tid = some t)
    (hl : t.last_used_at = some l) (hw : cooldownSeconds ≤ now - l) :
    verify_and_mark_ticket s now tid = (admittedResult t, markUsed s tid now) := by
  simp only [verify_and_mark_ticket, h, hl]
  rw [if_neg (Nat.not_lt.mpr hw)]

/-- While a found ticket is inside the cooldown for every call time, a burst
of serialized redemption calls returns the cooldown rejection every time and
never moves the store. -/
theorem runRedeemsAt_cooldown (tid : String) (t : Ticket) (l : Nat)
    (hl : t.last_used_at = some l) :
    ∀ (us : List Nat) (s : Store), findTicket s tid = some t →
      (∀ u ∈ us, u - l < cooldownSeconds) →
      runRedeemsAt s tid us = (us.map (fun _ => alreadyUsedResult t), s) := by
  intro us
  induction us with
  | nil => intro s h hw; rfl
  | cons u us ih =>
    intro s h hw
    have hu : u - l < cooldownSeconds := hw u (by simp)
    have hrest := ih s h (fun v hv => hw v (List.mem_cons_of_mem u hv))
    simp only [runRedeemsAt, verify_reject s u tid t l h hl hu, hrest,
      List.map_cons]

/-- C8: the redemption outcome is independent of the client-supplied
day/occasion argument: for every ticket identifier, store state and any two
values of the `currentDay` parameter, `verifyTicketById` returns the same
outcome and leaves the store in the same state; the admission decision is
derived only from server-side ticket state. -/
theorem redeem_independent_of_client_day (s : Store) (now : Nat)
    (ticketId : String) (d1 d2 : Nat) :
    verifyTicketById s now ticketId d1 = verifyTicketById s now ticketId d2 :=
  rfl

/-- C4: the Lookup operations (`searchTickets` and `getTicketStatus`) never
mutate ticket state: any sequence of Lookup calls leaves the store unchanged,
so a Redeem issued afterwards returns exactly what it would have returned
first. -/
theorem lookup_never_mutates (s : Store) (cs : List LookupCall) (now : Nat)
    (tid : String) :
    runLookups s cs = s ∧
    verify_and_mark_ticket (runLookups s cs) now tid =
      verify_and_mark_ticket s now tid := by
  have h : ∀ s : Store, runLookups s cs = s := by
    induction cs with
    | nil => intro s; rfl
    | cons c cs ih =>
      intro s
      cases c with
      | search q => exact ih s
      | status tid2 => exact ih s
  exact ⟨h s, by rw [h s]⟩

/-- C5: an input string that does not match the expected shape (canonical
UUID for `verifyTicketById`, exactly six decimal digits for
`verifyTicketByCode`) is rejected with reason INVALID_TICKET for every store
state, the result not depending on the store and the store left unchanged. -/
theorem malformed_input_rejected (s : Store) (now : Nat) (d : Nat)
    (ticketId code : String)
    (hid : isUuidFormat ticketId = false)
    (hcode : isSixDigitCode code = false) :
    verifyTicketById s now ticketId d =
      ({ allowed := false, reason := "INVALID_TICKET",
         message := "Invalid QR code format", name := none }, s) ∧
    verifyTicketByCode s now code d =
      ({ allowed := false, reason := "INVALID_TICKET",
         message := "Code must be 6 digits", name := none }, s) := by
  constructor
  · unfold verifyTicketById
    rw [hid]
    rfl
  · unfold verifyTicketByCode
    rw [hcode]
    rfl

/-- C5 witness: the format guards fire on concrete malformed inputs. -/
theorem malformed_input_rejected_witness :
    isUuidFormat "zz" = false ∧ isSixDigitCode "12a456" = false ∧
    (verifyTicketById store1 5 "zz" 1 =
      ({ allowed := false, reason := "INVALID_TICKET",
         message := "Invalid QR code format", name := none }, store1) ∧
     verifyTicketByCode store1 5 "12a456" 1 =
      ({ allowed := false, reason := "INVALID_TICKET",
         message := "Code must be 6 digits", name := none }, store1)) :=
  ⟨by decide, by decide,
    malformed_input_rejected store1 5 1 "zz" "12a456" (by decide) (by decide)⟩

/-- C10: a well-formed six digit code that matches no stored ticket makes
`verifyTicketByCode` return a not-admitted result with reason ERROR (the
`.single()` lookup reports zero rows as an error before the explicit
not-found branch is reached), not INVALID_TICKET, and the store is
unchanged. -/
theorem unknown_code_reports_error (s : Store) (now : Nat) (d : Nat)
    (code : String) (hc : isSixDigitCode code = true)
    (hnone : s.tickets.filter (fun t => t.six_digit_code == code) = []) :
    verifyTicketByCode s now code d =
      ({ allowed := false, reason := "ERROR",
         message := "Lookup failed. Please try again.", name := none }, s) := by
  unfold verifyTicketByCode
  rw [hc]
  simp only [singleRow, hnone, Bool.not_true, Bool.false_eq_true, if_false]

/-- C10 witness: a syntactically valid code absent from a concrete store. -/
theorem unknown_code_reports_error_witness :
    isSixDigitCode "654321" = true ∧
    store1.tickets.filter (fun t => t.six_digit_code == "654321") = [] ∧
    verifyTicketByCode store1 5 "654321" 1 =
      ({ allowed := false, reason := "ERROR",
         message := "Lookup failed. Please try again.", name := none },
       store1) :=
  ⟨by decide, by decide,
    unknown_code_reports_error store1 5 1 "654321" (by decide) (by decide)⟩

/-- C2: a never-redeemed ticket is admitted on the first call; every call
made while less than 14 hours have elapsed since that admission is rejected
with reason ALREADY_USED and leaves the store where it was; once 14 or more
hours have elapsed since the admission, redemption is admitted again. -/
theorem sequential_redeem_cooldown (s : Store) (tid : String) (t : Ticket)
    (t0 : Nat) (h : findTicket s tid = some t)
    (hnever : t.last_used_at = none) :
    (verify_and_mark_ticket s t0 tid).1 = admittedResult t ∧
    (∀ u, u - t0 < cooldownSeconds →
      (verify_and_mark_ticket (verify_and_mark_ticket s t0 tid).2 u tid).1 =
        alreadyUsedResult { t with last_used_at := some t0, updated_at := t0 } ∧
      (verify_and_mark_ticket (verify_and_mark_ticket s t0 tid).2 u tid).2 =
        (verify_and_mark_ticket s t0 tid).2) ∧
    (∀ u, cooldownSeconds ≤ u - t0 →
      (verify_and_mark_ticket (verify_and_mark_ticket s t0 tid).2 u tid).1 =
        admittedResult { t with last_used_at := some t0, updated_at := t0 }) := by
  have hfirst := verify_admit_never s t0 tid t h hnever
  have hfind := findTicket_markUsed s tid t0 t h
  refine ⟨by rw [hfirst], ?_, ?_⟩
  · intro u hu
    rw [hfirst]
    have hr := verify_reject (markUsed s tid t0) u tid
      { t with last_used_at := some t0, updated_at := t0 } t0 hfind rfl hu
    rw [hr]
    exact ⟨rfl, rfl⟩
  · intro u hu
    rw [hfirst]
    have ha := verify_admit_expired (markUsed s tid t0) u tid
      { t with last_used_at := some t0, updated_at := t0 } t0 hfind rfl hu
    rw [ha]

/-- C2 witness: the cooldown scenario on a concrete one-ticket store. -/
theorem sequential_redeem_cooldown_witness :
    findTicket store1 "aaaaaaaa-0000-0000-0000-000000000001" = some ticketA ∧
    ticketA.last_used_at = none ∧
    ((verify_and_mark_ticket store1 0
        "aaaaaaaa-0000-0000-0000-000000000001").1 = admittedResult ticketA ∧
     (∀ u, u - 0 < cooldownSeconds →
       (verify_and_mark_ticket (verify_and_mark_ticket store1 0
           "aaaaaaaa-0000-0000-0000-000000000001").2 u
           "aaaaaaaa-0000-0000-0000-000000000001").1 =
         alreadyUsedResult
           { ticketA with last_used_at := some 0, updated_at := 0 } ∧
       (verify_and_mark_ticket (verify_and_mark_ticket store1 0
           "aaaaaaaa-0000-0000-0000-000000000001").2 u
           "aaaaaaaa-0000-0000-0000-000000000001").2 =
         (verify_and_mark_ticket store1 0
           "aaaaaaaa-0000-0000-0000-000000000001").2) ∧
     (∀ u, cooldownSeconds ≤ u - 0 →
       (verify_and_mark_ticket (verify_and_mark_ticket store1 0
           "aaaaaaaa-0000-0000-0000-000000000001").2 u
           "aaaaaaaa-0000-0000-0000-000000000001").1 =
         admittedResult
           { ticketA with last_used_at := some 0, updated_at := 0 })) :=
  ⟨by decide, rfl,
    sequential_redeem_cooldown store1 "aaaaaaaa-0000-0000-0000-000000000001"
      ticketA 0 (by decide) rfl⟩

/-- C3: whenever the redemption transaction returns a non-admitted outcome
it leaves the store completely unchanged; consequently a retry of Redeem
inside the cooldown window of the admission it races with leaves the stored
state identical to issuing the call once, and the retry never admits. -/
theorem reject_leaves_state_unchanged :
    (∀ (s : Store) (now : Nat) (tid : String),
      (verify_and_mark_ticket s now tid).1.allowed = false →
      (verify_and_mark_ticket s now tid).2 = s) ∧
    (∀ (s : Store) (t1 t2 : Nat) (tid : String),
      t2 - t1 < cooldownSeconds →
      (∀ l, ((findTicket s tid).bind (fun t => t.last_used_at)) = some l →
        t2 - l < cooldownSeconds) →
      (verify_and_mark_ticket (verify_and_mark_ticket s t1 tid).2 t2 tid).2 =
        (verify_and_mark_ticket s t1 tid).2 ∧
      (verify_and_mark_ticket (verify_and_mark_ticket s t1 tid).2 t2
        tid).1.allowed = false) := by
  constructor
  · intro s now tid hall
    unfold verify_and_mark_ticket at *
    cases hf : findTicket s tid with
    | none => simp [hf]
    | some t =>
      cases hl : t.last_used_at with
      | none =>
        rw [hf] at hall
        simp only [hl] at hall
        simp [admittedResult] at hall
      | some l =>
        by_cases hw : now - l < cooldownSeconds
        · simp [hf, hl, hw]
        · rw [hf] at hall
          simp only [hl, if_neg hw] at hall
          simp [admittedResult] at hall
  · intro s t1 t2 tid hwin hpre
    cases hf : findTicket s tid with
    | none =>
      have h1 := verify_not_found s t1 tid hf
      rw [h1]
      have h2 := verify_not_found s t2 tid hf
      rw [h2]
      exact ⟨rfl, rfl⟩
    | some t =>
      cases hl : t.last_used_at with
      | none =>
        have h1 := verify_admit_never s t1 tid t hf hl
        rw [h1]
        have hfind := findTicket_markUsed s tid t1 t hf
        have h2 := verify_reject (markUsed s tid t1) t2 tid
          { t with last_used_at := some t1, updated_at := t1 } t1 hfind rfl hwin
        rw [h2]
        exact ⟨rfl, rfl⟩
      | some l =>
        have hl2 : t2 - l < cooldownSeconds := by
          apply hpre
          rw [hf]
          simp [hl]
        by_cases hw : t1 - l < cooldownSeconds
        · have h1 := verify_reject s t1 tid t l hf hl hw
          rw [h1]
          have h2 := verify_reject s t2 tid t l hf hl hl2
          rw [h2]
          exact ⟨rfl, rfl⟩
        · have h1 := verify_admit_expired s t1 tid t l hf hl (Nat.not_lt.mp hw)
          rw [h1]
          have hfind := findTicket_markUsed s tid t1 t hf
          have h2 := verify_reject (markUsed s tid t1) t2 tid
            { t with last_used_at := some t1, updated_at := t1 } t1 hfind rfl
            hwin
          rw [h2]
          exact ⟨rfl, rfl⟩

/-- C3 witness: a rejected call on a concrete in-cooldown store leaves it
unchanged, and a concrete immediate retry is idempotent on state. -/
theorem reject_leaves_state_unchanged_witness :
    (verify_and_mark_ticket storeUsed 5
      "bbbbbbbb-0000-0000-0000-000000000002").1.allowed = false ∧
    (verify_and_mark_ticket storeUsed 5
      "bbbbbbbb-0000-0000-0000-000000000002").2 = storeUsed ∧
    (3 - 1 < cooldownSeconds ∧
     (verify_and_mark_ticket (verify_and_mark_ticket store1 1
         "aaaaaaaa-0000-0000-0000-000000000001").2 3
         "aaaaaaaa-0000-0000-0000-000000000001").2 =
       (verify_and_mark_ticket store1 1
         "aaaaaaaa-0000-0000-0000-000000000001").2 ∧
     (verify_and_mark_ticket (verify_and_mark_ticket store1 1
         "aaaaaaaa-0000-0000-0000-000000000001").2 3
         "aaaaaaaa-0000-0000-0000-000000000001").1.allowed = false) :=
  ⟨by decide,
   reject_leaves_state_unchanged.1 storeUsed 5
     "bbbbbbbb-0000-0000-0000-000000000002" (by decide),
   by decide,
   (reject_leaves_state_unchanged.2 store1 1 3
     "aaaaaaaa-0000-0000-0000-000000000001" (by decide)
     (fun l hl => Option.noConfusion hl)).1,
   (reject_leaves_state_unchanged.2 store1 1 3
     "aaaaaaaa-0000-0000-0000-000000000001" (by decide)
     (fun l hl => Option.noConfusion hl)).2⟩

/-- Filtering a constant-valued map by a predicate the constant fails gives
the empty list; by its negation, the whole list. -/
theorem filter_map_const_counts {β : Type} (us : List β) (r : VerifyResult)
    (hr : r.allowed = false) :
    ((us.map (fun _ => r)).filter (fun x => x.allowed)).length = 0 ∧
    ((us.map (fun _ => r)).filter (fun x => !x.allowed)).length = us.length := by
  induction us with
  | nil => exact ⟨rfl, rfl⟩
  | cons u us ih =>
    refine ⟨?_, ?_⟩
    · simp [List.filter_cons, hr, ih.1]
    · simp [List.filter_cons, hr, ih.2]

/-- C1: with the row lock serializing the concurrent transactions, a burst
of N = 1 + k calls (k ≥ 1) against a never-used ticket, all submitted within
the cooldown window, yields exactly one admission; the other N - 1 calls all
return the ALREADY_USED rejection, so no interleaving admits twice. -/
theorem concurrent_redeem_exactly_one (s : Store) (tid : String) (t : Ticket)
    (t0 : Nat) (us : List Nat) (h : findTicket s tid = some t)
    (hnever : t.last_used_at = none) (hn : 1 ≤ us.length)
    (hwin : ∀ u ∈ us, u - t0 < cooldownSeconds) :
    ((runRedeemsAt s tid (t0 :: us)).1.filter (fun r => r.allowed)).length
        = 1 ∧
    ((runRedeemsAt s tid (t0 :: us)).1.filter (fun r => !r.allowed)).length
        = (t0 :: us).length - 1 ∧
    (∀ r ∈ (runRedeemsAt s tid (t0 :: us)).1,
      r.allowed = false → r.reason = "ALREADY_USED") := by
  have hfirst := verify_admit_never s t0 tid t h hnever
  have hfind := findTicket_markUsed s tid t0 t h
  have htail := runRedeemsAt_cooldown tid
    { t with last_used_at := some t0, updated_at := t0 } t0 rfl us
    (markUsed s tid t0) hfind hwin
  have hrun : (runRedeemsAt s tid (t0 :: us)).1 =
      admittedResult t ::
        us.map (fun _ => alreadyUsedResult
          { t with last_used_at := some t0, updated_at := t0 }) := by
    simp only [runRedeemsAt, hfirst, htail]
  rw [hrun]
  have hcounts := filter_map_const_counts us
    (alreadyUsedResult { t with last_used_at := some t0, updated_at := t0 })
    rfl
  refine ⟨?_, ?_, ?_⟩
  · have hpos : (fun r : VerifyResult => r.allowed) (admittedResult t)
        = true := rfl
    rw [List.filter_cons, if_pos hpos, List.length_cons, hcounts.1]
  · have hneg : (fun r : VerifyResult => !r.allowed) (admittedResult t)
        = false := rfl
    rw [List.filter_cons, if_neg (by simp [hneg]), hcounts.2,
      List.length_cons, Nat.add_sub_cancel]
  · intro r hr hfalse
    rcases List.mem_cons.mp hr with hre | hrm
    · rw [hre] at hfalse
      simp [admittedResult] at hfalse
    · rcases List.mem_map.mp hrm with ⟨u, _, hu⟩
      rw [← hu]
      rfl

/-- C1 witness: a two-call burst on a concrete never-used ticket. -/
theorem concurrent_redeem_exactly_one_witness :
    findTicket store1 "aaaaaaaa-0000-0000-0000-000000000001" = some ticketA ∧
    ticketA.last_used_at = none ∧
    1 ≤ ([3] : List Nat).length ∧
    (∀ u ∈ ([3] : List Nat), u - 0 < cooldownSeconds) ∧
    (((runRedeemsAt store1 "aaaaaaaa-0000-0000-0000-000000000001"
        (0 :: [3])).1.filter (fun r => r.allowed)).length = 1 ∧
     ((runRedeemsAt store1 "aaaaaaaa-0000-0000-0000-000000000001"
        (0 :: [3])).1.filter (fun r => !r.allowed)).length =
       ((0 : Nat) :: [3]).length - 1 ∧
     (∀ r ∈ (runRedeemsAt store1 "aaaaaaaa-0000-0000-0000-000000000001"
        (0 :: [3])).1, r.allowed = false → r.reason = "ALREADY_USED")) :=
  ⟨by decide, rfl, by decide, by decide,
    concurrent_redeem_exactly_one store1
      "aaaaaaaa-0000-0000-0000-000000000001" ticketA 0 [3] (by decide) rfl
      (by decide) (by decide)⟩

/-- C6: an override request whose justification is missing or trims to fewer
than 10 characters, or whose operator identifier is missing, fails and
performs no ticket mutation and no audit-log write, for both
`adminForceAllow` and `adminResetEntry`. -/
theorem invalid_override_rejected (s : Store) (now : Nat) (tid : String)
    (day : Nat) (reason adminId : Option String)
    (h : jsFalsyStr reason = true ∨ (jsTrim (jsStr reason)).length < 10 ∨
      adminId = none) :
    (adminForceAllow s now tid day reason adminId).1.success = false ∧
    (adminForceAllow s now tid day reason adminId).2 = s ∧
    (adminResetEntry s now tid day reason adminId).1.success = false ∧
    (adminResetEntry s now tid day reason adminId).2 = s := by
  by_cases hg :
      (jsFalsyStr reason || decide ((jsTrim (jsStr reason)).length < 10))
        = true
  · simp only [adminForceAllow, adminResetEntry, if_pos hg]
    exact ⟨by trivial, by trivial, by trivial, by trivial⟩
  · have hid : adminId = none := by
      rcases h with h | h | h
      · exact absurd (by simp [h]) hg
      · exact absurd (by simp [h]) hg
      · exact h
    subst hid
    simp only [adminForceAllow, adminResetEntry, if_neg hg]
    exact ⟨by trivial, by trivial, by trivial, by trivial⟩

/-- C6 witness: a too-short justification on a concrete store. -/
theorem invalid_override_rejected_witness :
    (jsFalsyStr (some "short") = true ∨
      (jsTrim (jsStr (some "short"))).length < 10 ∨
      (some "gate1" : Option String) = none) ∧
    ((adminForceAllow store1 7 "aaaaaaaa-0000-0000-0000-000000000001" 1
        (some "short") (some "gate1")).1.success = false ∧
     (adminForceAllow store1 7 "aaaaaaaa-0000-0000-0000-000000000001" 1
        (some "short") (some "gate1")).2 = store1 ∧
     (adminResetEntry store1 7 "aaaaaaaa-0000-0000-0000-000000000001" 1
        (some "short") (some "gate1")).1.success = false ∧
     (adminResetEntry store1 7 "aaaaaaaa-0000-0000-0000-000000000001" 1
        (some "short") (some "gate1")).2 = store1) :=
  ⟨Or.inr (Or.inl (by decide)),
    invalid_override_rejected store1 7
      "aaaaaaaa-0000-0000-0000-000000000001" 1 (some "short") (some "gate1")
      (Or.inr (Or.inl (by decide)))⟩

/-- C7: on an existing ticket (used or not), `admin_force_allow` succeeds,
marks the ticket used now, and appends exactly one ALLOW audit row in the
same transaction; `admin_reset_entry` succeeds, clears the used state (so an
immediately following redemption admits), and appends exactly one RESET
audit row; on a missing ticket both fail and write nothing. -/
theorem admin_override_semantics (s : Store) (now : Nat)
    (tid reason aid : String) (t : Ticket) (h : findTicket s tid = some t) :
    (admin_force_allow s now tid reason aid).1.success = true ∧
    findTicket (admin_force_allow s now tid reason aid).2 tid =
      some { t with last_used_at := some now, updated_at := now } ∧
    (admin_force_allow s now tid reason aid).2.override_logs =
      s.override_logs ++
        [{ ticket_id := tid, admin_action := "ALLOW", day := "SINGLE",
           reason := reason, admin_identifier := aid }] ∧
    (admin_reset_entry s now tid reason aid).1.success = true ∧
    (admin_reset_entry s now tid reason aid).2.override_logs =
      s.override_logs ++
        [{ ticket_id := tid, admin_action := "RESET", day := "SINGLE",
           reason := reason, admin_identifier := aid }] ∧
    (∀ u, (verify_and_mark_ticket
      (admin_reset_entry s now tid reason aid).2 u tid).1.allowed = true) ∧
    (∀ s2 : Store, findTicket s2 tid = none →
      admin_force_allow s2 now tid reason aid = (adminNotFound, s2) ∧
      admin_reset_entry s2 now tid reason aid = (adminNotFound, s2)) := by
  simp only [admin_force_allow, admin_reset_entry, h]
  refine ⟨by trivial, ?_, by trivial, by trivial, by trivial, ?_, ?_⟩
  · exact findTicket_markUsed s tid now t h
  · intro u
    have hfind : findTicket
        { clearUsed s tid now with override_logs :=
            (clearUsed s tid now).override_logs ++
              [{ ticket_id := tid, admin_action := "RESET", day := "SINGLE",
                 reason := reason, admin_identifier := aid }] } tid =
        some { t with last_used_at := none, updated_at := now } :=
      findTicket_clearUsed s tid now t h
    rw [verify_admit_never _ u tid _ hfind rfl]
    rfl
  · intro s2 h2
    constructor
    · simp only [admin_force_allow, h2]
    · simp only [admin_reset_entry, h2]

/-- C7 witness: a concrete existing ticket and the concrete missing-ticket
case handled inside the conclusion. -/
theorem admin_override_semantics_witness :
    findTicket store1 "aaaaaaaa-0000-0000-0000-000000000001" = some ticketA ∧
    ((admin_force_allow store1 9 "aaaaaaaa-0000-0000-0000-000000000001"
        "damaged ticket at gate" "gate1").1.success = true ∧
     findTicket (admin_force_allow store1 9
        "aaaaaaaa-0000-0000-0000-000000000001"
        "damaged ticket at gate" "gate1").2
        "aaaaaaaa-0000-0000-0000-000000000001" =
      some { ticketA with last_used_at := some 9, updated_at := 9 } ∧
     (admin_force_allow store1 9 "aaaaaaaa-0000-0000-0000-000000000001"
        "damaged ticket at gate" "gate1").2.override_logs =
      store1.override_logs ++
        [{ ticket_id := "aaaaaaaa-0000-0000-0000-000000000001",
           admin_action := "ALLOW", day := "SINGLE",
           reason := "damaged ticket at gate",
           admin_identifier := "gate1" }] ∧
     (admin_reset_entry store1 9 "aaaaaaaa-0000-0000-0000-000000000001"
        "damaged ticket at gate" "gate1").1.success = true ∧
     (admin_reset_entry store1 9 "aaaaaaaa-0000-0000-0000-000000000001"
        "damaged ticket at gate" "gate1").2.override_logs =
      store1.override_logs ++
        [{ ticket_id := "aaaaaaaa-0000-0000-0000-000000000001",
           admin_action := "RESET", day := "SINGLE",
           reason := "damaged ticket at gate",
           admin_identifier := "gate1" }] ∧
     (∀ u, (verify_and_mark_ticket (admin_reset_entry store1 9
        "aaaaaaaa-0000-0000-0000-000000000001"
        "damaged ticket at gate" "gate1").2 u
        "aaaaaaaa-0000-0000-0000-000000000001").1.allowed = true) ∧
     (∀ s2 : Store,
        findTicket s2 "aaaaaaaa-0000-0000-0000-000000000001" = none →
        admin_force_allow s2 9 "aaaaaaaa-0000-0000-0000-000000000001"
          "damaged ticket at gate" "gate1" = (adminNotFound, s2) ∧
        admin_reset_entry s2 9 "aaaaaaaa-0000-0000-0000-000000000001"
          "damaged ticket at gate" "gate1" = (adminNotFound, s2))) :=
  ⟨by decide,
    admin_override_semantics store1 9 "aaaaaaaa-0000-0000-0000-000000000001"
      "damaged ticket at gate" "gate1" ticketA (by decide)⟩

/-- C9 counterexample: the search also matches the college field, which the
claimed property does not allow.  On a concrete store, the query abc returns
a ticket whose name, contact and numeric code all fail the claimed match —
only its college contains the query. -/
theorem search_claim_counterexample :
    searchTickets store1 "abc" = [ticketA] ∧
    claimedSearchMatch "abc" ticketA = false := by
  constructor
  · decide
  · decide

/-- C9 (amended): for every query and store the free-text search returns at
most 20 tickets, and every returned ticket matches the trimmed query
case-insensitively as a substring of its name, contact (email) or college,
or matches it exactly on its numeric code. -/
theorem search_bounded_and_matching (s : Store) (q : String) :
    (searchTickets s q).length ≤ 20 ∧
    ∀ t ∈ searchTickets s q,
      (ilikeSub t.name (jsTrim q) || ilikeSub t.email (jsTrim q) ||
       t.six_digit_code == jsTrim q || ilikeSub t.college (jsTrim q))
        = true := by
  unfold searchTickets
  by_cases hq : q.length < 3
  · rw [if_pos hq]
    exact ⟨by simp, by simp⟩
  · rw [if_neg hq]
    refine ⟨?_, ?_⟩
    · rw [List.length_take]
      exact min_le_left _ _
    · intro t ht
      have hmem := List.take_subset 20 _ ht
      have hf := List.mem_filter.mp hmem
      exact hf.2

end Yatra
